import Mathlib

/-!
# Shallow embedding of the templatebox template registry

This file embeds the Go package `templatebox` (file `templatebox.go`) in
Lean 4 and proves properties of the registry contract.

Modelling conventions:

* Go maps (`map[string]*template.Template`, `map[string]FileSet`) are
  association lists; a write prepends the new binding and `alookup`
  returns the most recent binding, which matches Go's overwrite
  semantics observationally.
* The host templating engine (`html/template`) is opaque per the spec.
  A compiled template is represented by the data that determines it:
  the construction-time name passed to `template.New`, the attached
  function tables (later `Funcs` calls override earlier bindings for
  the same identifier), and the ordered sequence of sources fed to the
  parser, each tagged with the name the engine files it under (the base
  file name for `ParseFiles`/`ParseFS`, the root name for raw `Parse`).
  Whether a given source text parses is abstracted by a `parseOk`
  predicate, and template execution by an `exec` function, both
  supplied as parameters.
* The OS filesystem and the embedded archive (`embed.FS`) are finite
  path-to-contents maps.  `os.Stat` in `NewBoxFromOSDir` is abstracted
  by a `statOk` predicate.
* Function values in a `FuncMap` (`map[string]any` in Go) are opaque;
  they are represented by `Nat` identifiers.
* Caller data (`any` in Go) is never inspected by the registry; it is
  represented by an opaque payload type `Data`.
* Mutexes are dropped: each operation is modelled as a pure function
  from the receiver state to the updated state and a result, which is
  its sequential semantics.
-/

namespace Templatebox

/-- Opaque caller data handed to `RenderHTML` (`any` in Go). -/
abbrev Data := Nat

/-- A filesystem: finite map from path to file contents (most recent
binding wins, as in `alookup`). Models both the OS filesystem seen by
`ParseFiles` and the `embed.FS` archive seen by `ParseFS`. -/
abbrev FS := List (String × String)

/-- `FuncMap` is a map of functions that can be added to a template
(`map[string]any`); function values are opaque `Nat` identifiers. -/
abbrev FuncMap := List (String × Nat)

/-- Association-list lookup: the most recently prepended binding for a
key wins.  Models reading a Go map. -/
def alookup {α : Type} : List (String × α) → String → Option α
  | [], _ => none
  | (k, v) :: rest, n => if k = n then some v else alookup rest n

/-- Go `filepath.Base`: the part of the path after the last slash.
(Path cleaning of trailing slashes is irrelevant to the paths used
here.) -/
def filepathBase (p : String) : String :=
  String.mk (p.data.foldl (fun acc c => if c = '/' then [] else acc ++ [c]) [])

/-- Go `filepath.Join dir name` for non-empty `dir` (the embedding only
calls it that way, mirroring the guard in `AddTemplate`); path cleaning
is irrelevant to the paths used here. -/
def filepathJoin (dir name : String) : String :=
  dir ++ "/" ++ name

/-- Config is a configuration struct for creating a new Box; `Debug`
enables debug mode (rebuild templates before rendering). -/
structure Config where
  Debug : Bool
deriving DecidableEq, Repr

/-- Default config used when the caller passes a nil config. -/
def defaultConfig : Config := { Debug := false }

/-- Errors returned while reading/parsing template sources. -/
inductive ParseErr where
  /-- `ParseFiles` was given no files (engine error). -/
  | noFiles
  /-- A file named in a `FileSet` does not exist on the OS filesystem. -/
  | fileNotFound (path : String)
  /-- A pattern given to `ParseFS` matches nothing in the archive. -/
  | patternNoFiles (path : String)
  /-- The source text does not parse. -/
  | syntaxError (src : String)
deriving DecidableEq, Repr

/-- Error values returned by the public operations, mirroring the
`fmt.Errorf` values of the Go code; wrapping (`%w`) is modelled by
carrying the cause as an argument. -/
inductive Err where
  /-- `AddTemplate`: "no filenames provided". -/
  | noFilenames
  /-- `AddTemplateRaw`: "no templates provided". -/
  | noTemplates
  /-- `NewBoxFromFSDir`: "embed.FS cannot be nil". -/
  | nilFS
  /-- `NewBoxFromOSDir`: "template directory ... does not exist". -/
  | dirNotExist (dir : String)
  /-- `AddTemplate`: "add template failed: %w". -/
  | addTemplateFailed (cause : ParseErr)
  /-- `AddTemplateRaw`: "failed to parse template %s at index %d: %w ...". -/
  | rawParseFailed (name : String) (index : Nat) (cause : ParseErr) (content : String)
  /-- `RenderHTML`: "rebuild HTML template failed: %w". -/
  | rebuildFailed (cause : Err)
  /-- `RenderHTML`: "template %s not found". -/
  | templateNotFound (name : String)
  /-- An execution-time error from the engine's `Execute`. -/
  | execFailed (msg : String)
deriving DecidableEq, Repr

/-- A compiled template object (`*template.Template`): its
construction-time name (the argument of `template.New`), the attached
function bindings (most recently attached first, so `alookup` gives
the binding in effect), and the ordered sequence of parsed sources as
pairs of the engine-internal template name and the source text. -/
structure Template where
  name : String
  funcs : List (String × Nat)
  parsed : List (String × String)
deriving DecidableEq, Repr

/-- `template.New name`. -/
def Template.new (name : String) : Template :=
  { name := name, funcs := [], parsed := [] }

/-- `t.Funcs(m)`: attach a function table; entries of `m` override
previously attached bindings of the same identifier (the engine applies
the most recently attached table last). -/
def Template.Funcs (t : Template) (m : FuncMap) : Template :=
  { t with funcs := m ++ t.funcs }

/-- The function binding in effect for identifier `id` in template
`t`. -/
def Template.funcLookup (t : Template) (id : String) : Option Nat :=
  alookup t.funcs id

/-- Loop of `t.ParseFiles(filenames...)`: read each file from the OS
filesystem; a missing file or a source that fails to parse aborts with
an error; each parsed file is filed under its base name. -/
def Template.parseFilesLoop (parseOk : String → Bool) (osfs : FS)
    (t : Template) : List String → Except ParseErr Template
  | [] => .ok t
  | f :: rest =>
    match alookup osfs f with
    | none => .error (.fileNotFound f)
    | some content =>
      if parseOk content then
        Template.parseFilesLoop parseOk osfs
          { t with parsed := t.parsed ++ [(filepathBase f, content)] } rest
      else .error (.syntaxError content)

/-- `t.ParseFiles(filenames...)` (OS filesystem); the engine rejects an
empty file list. -/
def Template.ParseFiles (parseOk : String → Bool) (osfs : FS)
    (t : Template) (filenames : List String) : Except ParseErr Template :=
  match filenames with
  | [] => .error .noFiles
  | _ :: _ => t.parseFilesLoop parseOk osfs filenames

/-- Loop of `t.ParseFS(fsys, patterns...)`: read each path from the
archive (a pattern matching no file is an error); each parsed file is
filed under its base name. -/
def Template.parseFSLoop (parseOk : String → Bool) (afs : FS)
    (t : Template) : List String → Except ParseErr Template
  | [] => .ok t
  | f :: rest =>
    match alookup afs f with
    | none => .error (.patternNoFiles f)
    | some content =>
      if parseOk content then
        Template.parseFSLoop parseOk afs
          { t with parsed := t.parsed ++ [(filepathBase f, content)] } rest
      else .error (.syntaxError content)

/-- `t.ParseFS(fsys, patterns...)` (embedded archive); the engine
rejects an empty pattern list. -/
def Template.ParseFS (parseOk : String → Bool) (afs : FS)
    (t : Template) (filenames : List String) : Except ParseErr Template :=
  match filenames with
  | [] => .error .noFiles
  | _ :: _ => t.parseFSLoop parseOk afs filenames

/-- The loop of `AddTemplateRaw`: `t, err = t.Parse(tmplStr)` for each
string in order, tracking the index for the error message; a parsed
string is filed in the root template's namespace. -/
def Template.parseRawLoop (parseOk : String → Bool) (t : Template)
    (i : Nat) : List String → Except (Nat × String) Template
  | [] => .ok t
  | s :: rest =>
    if parseOk s then
      Template.parseRawLoop parseOk
        { t with parsed := t.parsed ++ [(t.name, s)] } (i + 1) rest
    else .error (i, s)

/-- FileSet is a set of template files and a FuncMap (nil modelled as
`none`). -/
structure FileSet where
  Filenames : List String
  FuncMap : Option FuncMap
deriving DecidableEq, Repr

/-- TemplateSet is a set of template strings and a FuncMap (nil
modelled as `none`). -/
structure TemplateSet where
  Templates : List String
  FuncMap : Option FuncMap
deriving DecidableEq, Repr

/-- Box is a collection of templates and a global FuncMap.  `fs = none`
means the Box reads from the OS filesystem; `fs = some afs` means it is
backed by the read-only archive `afs`.  The two mutexes of the Go
struct are dropped (sequential semantics); `rerenderTemplatesHTML` is
the name-to-FileSet map kept for debug-mode rebuilding (Go leaves it
nil outside debug mode and never reads or writes it then; the empty
list is observationally the same). -/
structure Box where
  cfg : Config
  fs : Option FS
  templateDir : String
  globalFuncMap : Option FuncMap
  html : List (String × Template)
  rerenderTemplatesHTML : List (String × FileSet)
deriving DecidableEq, Repr

/-- `NewBoxFromFSDir(fs, templateDir, cfg)`: nil cfg falls back to the
default; a nil embed.FS is an error; `templateDir` is not validated. -/
def NewBoxFromFSDir (fs : Option FS) (templateDir : String)
    (cfg : Option Config) : Except Err Box :=
  let cfg := cfg.getD defaultConfig
  match fs with
  | none => .error .nilFS
  | some afs =>
    .ok { cfg := cfg, fs := some afs, templateDir := templateDir,
          globalFuncMap := none, html := [], rerenderTemplatesHTML := [] }

/-- `NewBoxFromOSDir(templateDir, cfg)`: nil cfg falls back to the
default; the directory must exist (`os.Stat`, abstracted by
`statOk`). -/
def NewBoxFromOSDir (statOk : String → Bool) (templateDir : String)
    (cfg : Option Config) : Except Err Box :=
  let cfg := cfg.getD defaultConfig
  if statOk templateDir then
    .ok { cfg := cfg, fs := none, templateDir := templateDir,
          globalFuncMap := none, html := [], rerenderTemplatesHTML := [] }
  else .error (.dirNotExist templateDir)

/-- `SetGlobalFuncMap` sets the global FuncMap available to all
templates (a nil map is `none`). -/
def Box.SetGlobalFuncMap (b : Box) (g : Option FuncMap) : Box :=
  { b with globalFuncMap := g }

/-- The two `Funcs` attachments at the top of `AddTemplate` /
`AddTemplateRaw`: global FuncMap first (if non-nil), per-set FuncMap
second (if non-nil). -/
def Box.attachFuncs (b : Box) (t : Template) (perSet : Option FuncMap) :
    Template :=
  let t := match b.globalFuncMap with
    | some g => t.Funcs g
    | none => t
  match perSet with
  | some m => t.Funcs m
  | none => t

/-- `AddTemplate(name, s)`: reject an empty `Filenames` list; build the
root template named after the first filename; attach global then
per-set FuncMap; join filenames with `templateDir` when it is
non-empty; parse from the OS filesystem or the archive; on success
store the compiled template under `name` and, in debug mode, record
the FileSet for rebuilding.  Returns the updated Box and the error (Go
mutates the receiver and returns only the error). -/
def Box.AddTemplate (parseOk : String → Bool) (osfs : FS) (b : Box)
    (name : String) (s : FileSet) : Box × Option Err :=
  match s.Filenames with
  | [] => (b, some .noFilenames)
  | f0 :: _ =>
    let t := b.attachFuncs (Template.new f0) s.FuncMap
    let filenames := if b.templateDir ≠ "" then
        s.Filenames.map (filepathJoin b.templateDir)
      else s.Filenames
    let parsed := match b.fs with
      | none => t.ParseFiles parseOk osfs filenames
      | some afs => t.ParseFS parseOk afs filenames
    match parsed with
    | .error e => (b, some (.addTemplateFailed e))
    | .ok t =>
      let withHtml : Box := { b with html := (name, t) :: b.html }
      if b.cfg.Debug then
        ({ withHtml with
            rerenderTemplatesHTML :=
              (name, s) :: withHtml.rerenderTemplatesHTML }, none)
      else (withHtml, none)

/-- `AddTemplateMap(m)`: add each entry in turn, stopping at the first
failure (the Go map's iteration order is the list order here). -/
def Box.AddTemplateMap (parseOk : String → Bool) (osfs : FS) (b : Box) :
    List (String × FileSet) → Box × Option Err
  | [] => (b, none)
  | (k, v) :: rest =>
    match b.AddTemplate parseOk osfs k v with
    | (b1, none) => b1.AddTemplateMap parseOk osfs rest
    | (b1, some e) => (b1, some e)

/-- `AddTemplateRaw(name, s)`: reject an empty `Templates` list; build
the root template named after the registry key; attach global then
per-set FuncMap; parse each source string in order; on success store
the compiled template under `name`.  The rebuild map is NOT touched. -/
def Box.AddTemplateRaw (parseOk : String → Bool) (b : Box)
    (name : String) (s : TemplateSet) : Box × Option Err :=
  match s.Templates with
  | [] => (b, some .noTemplates)
  | _ :: _ =>
    let t := b.attachFuncs (Template.new name) s.FuncMap
    match Template.parseRawLoop parseOk t 0 s.Templates with
    | .error (i, str) =>
      (b, some (.rawParseFailed name i (.syntaxError str) str))
    | .ok t => ({ b with html := (name, t) :: b.html }, none)

/-- Result of a `RenderHTML` call: the Box state afterwards, the bytes
written to the sink (`none` when nothing was written; engine execution
is modelled all-or-nothing), and the returned error. -/
structure RenderResult where
  box : Box
  written : Option String
  err : Option Err
deriving DecidableEq, Repr

/-- The lookup-and-execute tail of `RenderHTML`: read the compiled
template under `name` (error naming the template when absent, nothing
written) and hand the data to the engine's `Execute`. -/
def Box.lookupAndExec (exec : Template → Data → Except Err String)
    (b : Box) (name : String) (data : Data) : RenderResult :=
  match alookup b.html name with
  | none => { box := b, written := none, err := some (.templateNotFound name) }
  | some t =>
    match exec t data with
    | .ok out => { box := b, written := some out, err := none }
    | .error e => { box := b, written := none, err := some e }

/-- `RenderHTML(w, name, data)`: in debug mode, if a FileSet is
recorded for `name` and the Box is OS-filesystem backed (`fs = nil`),
rebuild the template via `AddTemplate` first (an error aborts the
render, wrapped); then look up the compiled template and execute it. -/
def Box.RenderHTML (parseOk : String → Bool) (osfs : FS)
    (exec : Template → Data → Except Err String) (b : Box)
    (name : String) (data : Data) : RenderResult :=
  if b.cfg.Debug then
    match alookup b.rerenderTemplatesHTML name with
    | some s1 =>
      match b.fs with
      | none =>
        match b.AddTemplate parseOk osfs name s1 with
        | (b1, some e) =>
          { box := b1, written := none, err := some (.rebuildFailed e) }
        | (b1, none) => b1.lookupAndExec exec name data
      | some _ => b.lookupAndExec exec name data
    | none => b.lookupAndExec exec name data
  else b.lookupAndExec exec name data

/-- `Config()` accessor. -/
def Box.Config (b : Box) : Config := b.cfg

/-- `TemplateDir()` accessor. -/
def Box.TemplateDir (b : Box) : String := b.templateDir

/-! ## Helper lemmas -/

theorem alookup_append {α : Type} (l1 l2 : List (String × α)) (n : String) :
    alookup (l1 ++ l2) n = (alookup l1 n).or (alookup l2 n) := by
  induction l1 with
  | nil => simp [alookup]
  | cons p rest ih =>
    obtain ⟨k, v⟩ := p
    simp only [List.cons_append, alookup]
    split <;> simp [ih]

theorem alookup_cons_isSome {α : Type} (k : String) (v : α)
    (l : List (String × α)) (n : String) (h : (alookup l n).isSome) :
    (alookup ((k, v) :: l) n).isSome := by
  simp only [alookup]
  split <;> simp [h]

/-- `parseFilesLoop` on success: the construction-time name and the
function bindings are untouched; the parsed sources are extended by
exactly the contents of the given files, each filed under its base
name; and every file was present on the filesystem. -/
theorem parseFilesLoop_ok (parseOk : String → Bool) (osfs : FS) :
    ∀ (fns : List String) (t t' : Template),
      Template.parseFilesLoop parseOk osfs t fns = .ok t' →
      t'.name = t.name ∧ t'.funcs = t.funcs ∧
      t'.parsed = t.parsed ++
        fns.map (fun f => (filepathBase f, (alookup osfs f).getD "")) ∧
      ∀ f ∈ fns, (alookup osfs f).isSome := by
  intro fns
  induction fns with
  | nil =>
    intro t t' h
    simp only [Template.parseFilesLoop] at h
    cases h
    simp
  | cons f rest ih =>
    intro t t' h
    simp only [Template.parseFilesLoop] at h
    split at h
    · exact absurd h (by simp)
    · rename_i content hl
      split at h
      · obtain ⟨hn, hf, hp2, hall⟩ := ih _ _ h
        refine ⟨hn, hf, ?_, ?_⟩
        · simp only [hp2, hl, List.map_cons, Option.getD_some]
          simp
        · intro g hg
          rcases List.mem_cons.mp hg with hg | hg
          · subst hg; simp [hl]
          · exact hall g hg
      · exact absurd h (by simp)

/-- `parseFSLoop` on success: same shape as `parseFilesLoop_ok`, for
the archive. -/
theorem parseFSLoop_ok (parseOk : String → Bool) (afs : FS) :
    ∀ (fns : List String) (t t' : Template),
      Template.parseFSLoop parseOk afs t fns = .ok t' →
      t'.name = t.name ∧ t'.funcs = t.funcs ∧
      t'.parsed = t.parsed ++
        fns.map (fun f => (filepathBase f, (alookup afs f).getD "")) ∧
      ∀ f ∈ fns, (alookup afs f).isSome := by
  intro fns
  induction fns with
  | nil =>
    intro t t' h
    simp only [Template.parseFSLoop] at h
    cases h
    simp
  | cons f rest ih =>
    intro t t' h
    simp only [Template.parseFSLoop] at h
    split at h
    · exact absurd h (by simp)
    · rename_i content hl
      split at h
      · obtain ⟨hn, hf, hp2, hall⟩ := ih _ _ h
        refine ⟨hn, hf, ?_, ?_⟩
        · simp only [hp2, hl, List.map_cons, Option.getD_some]
          simp
        · intro g hg
          rcases List.mem_cons.mp hg with hg | hg
          · subst hg; simp [hl]
          · exact hall g hg
      · exact absurd h (by simp)

/-- `parseRawLoop` on success keeps the construction-time name and the
function bindings. -/
theorem parseRawLoop_ok (parseOk : String → Bool) :
    ∀ (srcs : List String) (t t' : Template) (i : Nat),
      Template.parseRawLoop parseOk t i srcs = .ok t' →
      t'.name = t.name ∧ t'.funcs = t.funcs := by
  intro srcs
  induction srcs with
  | nil =>
    intro t t' i h
    simp only [Template.parseRawLoop] at h
    cases h
    exact ⟨rfl, rfl⟩
  | cons s rest ih =>
    intro t t' i h
    simp only [Template.parseRawLoop] at h
    split at h
    · obtain ⟨hn, hf⟩ :=
        ih { t with parsed := t.parsed ++ [(t.name, s)] } t' (i + 1) h
      exact ⟨hn, hf⟩
    · exact absurd h (by simp)

/-- `ParseFiles` on success (the file list is necessarily non-empty). -/
theorem ParseFiles_ok (parseOk : String → Bool) (osfs : FS) (t : Template)
    (fns : List String) (t' : Template)
    (h : Template.ParseFiles parseOk osfs t fns = .ok t') :
    t'.name = t.name ∧ t'.funcs = t.funcs ∧
    t'.parsed = t.parsed ++
      fns.map (fun f => (filepathBase f, (alookup osfs f).getD "")) ∧
    ∀ f ∈ fns, (alookup osfs f).isSome := by
  unfold Template.ParseFiles at h
  split at h
  · exact absurd h (by simp)
  · exact parseFilesLoop_ok parseOk osfs _ t t' h

/-- `ParseFS` on success (the pattern list is necessarily non-empty). -/
theorem ParseFS_ok (parseOk : String → Bool) (afs : FS) (t : Template)
    (fns : List String) (t' : Template)
    (h : Template.ParseFS parseOk afs t fns = .ok t') :
    t'.name = t.name ∧ t'.funcs = t.funcs ∧
    t'.parsed = t.parsed ++
      fns.map (fun f => (filepathBase f, (alookup afs f).getD "")) ∧
    ∀ f ∈ fns, (alookup afs f).isSome := by
  unfold Template.ParseFS at h
  split at h
  · exact absurd h (by simp)
  · exact parseFSLoop_ok parseOk afs _ t t' h

/-- `attachFuncs` on a fresh template: the name is the `template.New`
argument and the bindings are the per-set table in front of the global
table, so `alookup` (first match wins) realizes per-set override. -/
theorem attachFuncs_new (b : Box) (nm : String) (perSet : Option FuncMap) :
    (b.attachFuncs (Template.new nm) perSet).name = nm ∧
    (b.attachFuncs (Template.new nm) perSet).funcs =
      perSet.getD [] ++ b.globalFuncMap.getD [] ∧
    (b.attachFuncs (Template.new nm) perSet).parsed = [] := by
  unfold Box.attachFuncs Template.Funcs Template.new
  cases b.globalFuncMap <;> cases perSet <;> simp

/-- Full characterization of a successful `AddTemplate` call: the file
list was non-empty, the Box is updated by storing the compiled
template under `name` (plus, in debug mode, recording the FileSet),
and the compiled template is named after the first filename, carries
per-set-over-global function bindings, and holds the contents of
exactly the (joined when `templateDir` is non-empty, else verbatim)
paths read from the active backend. -/
theorem AddTemplate_ok_spec (parseOk : String → Bool) (osfs : FS) (b : Box)
    (name : String) (s : FileSet) (b1 : Box)
    (h : b.AddTemplate parseOk osfs name s = (b1, none)) :
    ∃ f0 rest t, s.Filenames = f0 :: rest ∧
      b1 = { b with
        html := (name, t) :: b.html,
        rerenderTemplatesHTML :=
          if b.cfg.Debug then (name, s) :: b.rerenderTemplatesHTML
          else b.rerenderTemplatesHTML } ∧
      t.name = f0 ∧
      t.funcs = s.FuncMap.getD [] ++ b.globalFuncMap.getD [] ∧
      (b.fs = none →
        t.parsed = (if b.templateDir ≠ "" then
            s.Filenames.map (filepathJoin b.templateDir)
          else s.Filenames).map
            (fun f => (filepathBase f, (alookup osfs f).getD "")) ∧
        ∀ f ∈ (if b.templateDir ≠ "" then
            s.Filenames.map (filepathJoin b.templateDir)
          else s.Filenames), (alookup osfs f).isSome) ∧
      (∀ afs, b.fs = some afs →
        t.parsed = (if b.templateDir ≠ "" then
            s.Filenames.map (filepathJoin b.templateDir)
          else s.Filenames).map
            (fun f => (filepathBase f, (alookup afs f).getD "")) ∧
        ∀ f ∈ (if b.templateDir ≠ "" then
            s.Filenames.map (filepathJoin b.templateDir)
          else s.Filenames), (alookup afs f).isSome) := by
  simp only [Box.AddTemplate] at h
  split at h
  · exact absurd h (by simp)
  · rename_i f0 rest hfns
    obtain ⟨hnm, hfn, hpd⟩ := attachFuncs_new b f0 s.FuncMap
    split at h
    · exact absurd h (by simp)
    · rename_i t hparse
      refine ⟨f0, rest, t, hfns, ?_, ?_, ?_, ?_, ?_⟩
      · split at h
        · rename_i hdbg
          simp only [Prod.mk.injEq] at h
          obtain ⟨h1, -⟩ := h
          rw [← h1]
          simp [hdbg]
        · rename_i hdbg
          simp only [Prod.mk.injEq] at h
          obtain ⟨h1, -⟩ := h
          rw [← h1]
          simp [hdbg]
      · split at hparse
        · rename_i hfs
          obtain ⟨hn, _, _, _⟩ := ParseFiles_ok _ _ _ _ _ hparse
          rw [hn, hnm]
        · rename_i afs hfs
          obtain ⟨hn, _, _, _⟩ := ParseFS_ok _ _ _ _ _ hparse
          rw [hn, hnm]
      · split at hparse
        · rename_i hfs
          obtain ⟨_, hf, _, _⟩ := ParseFiles_ok _ _ _ _ _ hparse
          rw [hf, hfn]
        · rename_i afs hfs
          obtain ⟨_, hf, _, _⟩ := ParseFS_ok _ _ _ _ _ hparse
          rw [hf, hfn]
      · intro hfsnone
        split at hparse
        · obtain ⟨_, _, hp, hall⟩ := ParseFiles_ok _ _ _ _ _ hparse
          rw [hp, hpd]
          exact ⟨by simp, hall⟩
        · rename_i afs hfs
          rw [hfsnone] at hfs
          exact absurd hfs (by simp)
      · intro afs hfssome
        split at hparse
        · rename_i hfs
          rw [hfssome] at hfs
          exact absurd hfs (by simp)
        · rename_i afs' hfs
          rw [hfssome] at hfs
          cases hfs
          obtain ⟨_, _, hp, hall⟩ := ParseFS_ok _ _ _ _ _ hparse
          rw [hp, hpd]
          exact ⟨by simp, hall⟩

/-- Any failing `AddTemplate` call leaves the Box exactly as it was,
and the error is either the empty-file-list rejection or a wrapped
parse failure. -/
theorem AddTemplate_err_spec (parseOk : String → Bool) (osfs : FS) (b : Box)
    (name : String) (s : FileSet) (b1 : Box) (e : Err)
    (h : b.AddTemplate parseOk osfs name s = (b1, some e)) :
    b1 = b ∧
    ((e = .noFilenames ∧ s.Filenames = []) ∨
     (∃ c, e = .addTemplateFailed c ∧ s.Filenames ≠ [])) := by
  simp only [Box.AddTemplate] at h
  split at h
  · rename_i hnil
    cases h
    exact ⟨rfl, .inl ⟨rfl, hnil⟩⟩
  · rename_i f0 rest
    split at h
    · rename_i c hc
      cases h
      refine ⟨rfl, .inr ⟨c, rfl, by simp_all⟩⟩
    · split at h <;> exact absurd (congrArg Prod.snd h) (by simp)

/-- Full characterization of a successful `AddTemplateRaw` call: the
string list was non-empty, the compiled template is stored under
`name` and the rebuild map is untouched, and the compiled template is
named after the registry key with per-set-over-global bindings. -/
theorem AddTemplateRaw_ok_spec (parseOk : String → Bool) (b : Box)
    (name : String) (s : TemplateSet) (b1 : Box)
    (h : b.AddTemplateRaw parseOk name s = (b1, none)) :
    ∃ t, s.Templates ≠ [] ∧
      b1 = { b with html := (name, t) :: b.html } ∧
      t.name = name ∧
      t.funcs = s.FuncMap.getD [] ++ b.globalFuncMap.getD [] := by
  simp only [Box.AddTemplateRaw] at h
  split at h
  · exact absurd h (by simp)
  · rename_i s0 rest
    obtain ⟨hnm, hfn, _⟩ := attachFuncs_new b name s.FuncMap
    split at h
    · exact absurd h (by simp)
    · rename_i t hloop
      cases h
      obtain ⟨hn, hf⟩ := parseRawLoop_ok parseOk _ _ _ _ hloop
      exact ⟨t, by simp_all, rfl, by rw [hn, hnm], by rw [hf, hfn]⟩

/-- Any failing `AddTemplateRaw` call leaves the Box exactly as it
was, and the error is either the empty-list rejection or a parse
failure naming the set and the index and carrying the offending
source text. -/
theorem AddTemplateRaw_err_spec (parseOk : String → Bool) (b : Box)
    (name : String) (s : TemplateSet) (b1 : Box) (e : Err)
    (h : b.AddTemplateRaw parseOk name s = (b1, some e)) :
    b1 = b ∧
    ((e = .noTemplates ∧ s.Templates = []) ∨
     (∃ i str, e = .rawParseFailed name i (.syntaxError str) str ∧
        s.Templates ≠ [])) := by
  simp only [Box.AddTemplateRaw] at h
  split at h
  · rename_i hnil
    cases h
    exact ⟨rfl, .inl ⟨rfl, hnil⟩⟩
  · rename_i s0 rest hts
    split at h
    · rename_i i str hloop
      cases h
      exact ⟨rfl, .inr ⟨i, str, rfl, by simp_all⟩⟩
    · exact absurd (congrArg Prod.snd h) (by simp)

/-- `lookupAndExec` never changes the Box. -/
theorem lookupAndExec_box (exec : Template → Data → Except Err String)
    (b : Box) (name : String) (data : Data) :
    (b.lookupAndExec exec name data).box = b := by
  unfold Box.lookupAndExec
  split
  · rfl
  · split <;> rfl

/-- The Box after `RenderHTML` is either unchanged or the result of
the debug-mode `AddTemplate` rebuild from the recorded FileSet. -/
theorem RenderHTML_box_cases (parseOk : String → Bool) (osfs : FS)
    (exec : Template → Data → Except Err String) (b : Box) (name : String)
    (data : Data) :
    (b.RenderHTML parseOk osfs exec name data).box = b ∨
    ∃ s1, alookup b.rerenderTemplatesHTML name = some s1 ∧
      (b.RenderHTML parseOk osfs exec name data).box =
        (b.AddTemplate parseOk osfs name s1).1 := by
  unfold Box.RenderHTML
  split
  · split
    · rename_i s1 hs1
      split
      · split
        · rename_i b1 e hadd
          exact .inr ⟨s1, hs1, by rw [hadd]⟩
        · rename_i b1 hadd
          exact .inr ⟨s1, hs1, by rw [hadd, lookupAndExec_box]⟩
      · exact .inl (lookupAndExec_box ..)
    · exact .inl (lookupAndExec_box ..)
  · exact .inl (lookupAndExec_box ..)

/-- The rebuild-source map only ever grows: no operation drops a
recorded FileSet (`AddTemplate`). -/
theorem AddTemplate_rerender_mono (parseOk : String → Bool) (osfs : FS)
    (b : Box) (name : String) (s : FileSet) (n : String)
    (h : (alookup b.rerenderTemplatesHTML n).isSome) :
    (alookup ((b.AddTemplate parseOk osfs name s).1).rerenderTemplatesHTML
      n).isSome := by
  cases hr : b.AddTemplate parseOk osfs name s with
  | mk b1 r =>
    cases r with
    | none =>
      obtain ⟨f0, rest, t, -, hb1, -⟩ := AddTemplate_ok_spec _ _ _ _ _ _ hr
      rw [hb1]
      by_cases hd : b.cfg.Debug = true <;>
        simp only [hd, if_true, if_false, Bool.false_eq_true, ite_false,
          ite_true]
      · exact alookup_cons_isSome _ _ _ _ h
      · exact h
    | some e =>
      obtain ⟨hb1, -⟩ := AddTemplate_err_spec _ _ _ _ _ _ _ hr
      rw [hb1]
      exact h

/-- `AddTemplateRaw` never touches the rebuild-source map, in success
or failure. -/
theorem AddTemplateRaw_rerender_eq (parseOk : String → Bool) (b : Box)
    (name : String) (s : TemplateSet) :
    ((b.AddTemplateRaw parseOk name s).1).rerenderTemplatesHTML =
      b.rerenderTemplatesHTML := by
  cases hr : b.AddTemplateRaw parseOk name s with
  | mk b1 r =>
    cases r with
    | none =>
      obtain ⟨t, -, hb1, -⟩ := AddTemplateRaw_ok_spec _ _ _ _ _ hr
      rw [hb1]
    | some e =>
      obtain ⟨hb1, -⟩ := AddTemplateRaw_err_spec _ _ _ _ _ _ hr
      rw [hb1]

/-- The rebuild-source map only ever grows (`AddTemplateMap`). -/
theorem AddTemplateMap_rerender_mono (parseOk : String → Bool) (osfs : FS) :
    ∀ (l : List (String × FileSet)) (b : Box) (n : String),
      (alookup b.rerenderTemplatesHTML n).isSome →
      (alookup ((b.AddTemplateMap parseOk osfs l).1).rerenderTemplatesHTML
        n).isSome := by
  intro l
  induction l with
  | nil => intro b n h; exact h
  | cons p rest ih =>
    intro b n h
    obtain ⟨k, v⟩ := p
    simp only [Box.AddTemplateMap]
    split
    · rename_i b1 hr
      have h1 := AddTemplate_rerender_mono parseOk osfs b k v n h
      rw [hr] at h1
      exact ih b1 n h1
    · rename_i b1 e hr
      have h1 := AddTemplate_rerender_mono parseOk osfs b k v n h
      rw [hr] at h1
      exact h1

/-- One mutation step on a Box: any public operation of the package,
with arbitrary filesystem contents, parse outcomes and engine
behaviour at each step (on-disk files may change between calls). -/
inductive Step : Box → Box → Prop
  | addTemplate (parseOk : String → Bool) (osfs : FS) (b : Box)
      (name : String) (s : FileSet) :
      Step b (b.AddTemplate parseOk osfs name s).1
  | addTemplateMap (parseOk : String → Bool) (osfs : FS) (b : Box)
      (l : List (String × FileSet)) :
      Step b (b.AddTemplateMap parseOk osfs l).1
  | addTemplateRaw (parseOk : String → Bool) (b : Box) (name : String)
      (s : TemplateSet) :
      Step b (b.AddTemplateRaw parseOk name s).1
  | setGlobalFuncMap (b : Box) (g : Option FuncMap) :
      Step b (b.SetGlobalFuncMap g)
  | renderHTML (parseOk : String → Bool) (osfs : FS)
      (exec : Template → Data → Except Err String) (b : Box)
      (name : String) (data : Data) :
      Step b (b.RenderHTML parseOk osfs exec name data).box

/-- Boxes reachable from the two constructors by public operations. -/
inductive Reachable : Box → Prop
  | fromFSDir (fs : Option FS) (templateDir : String) (cfg : Option Config)
      (b : Box) : NewBoxFromFSDir fs templateDir cfg = .ok b → Reachable b
  | fromOSDir (statOk : String → Bool) (templateDir : String)
      (cfg : Option Config) (b : Box) :
      NewBoxFromOSDir statOk templateDir cfg = .ok b → Reachable b
  | step (b b' : Box) : Reachable b → Step b b' → Reachable b'

/-- The compiled-template map only ever grows across `AddTemplate`. -/
theorem AddTemplate_html_mono (parseOk : String → Bool) (osfs : FS)
    (b : Box) (name : String) (s : FileSet) (n : String)
    (h : (alookup b.html n).isSome) :
    (alookup ((b.AddTemplate parseOk osfs name s).1).html n).isSome := by
  cases hr : b.AddTemplate parseOk osfs name s with
  | mk b1 r =>
    show (alookup b1.html n).isSome = true
    cases r with
    | none =>
      obtain ⟨f0, rest, t, -, hb1, -⟩ := AddTemplate_ok_spec _ _ _ _ _ _ hr
      rw [hb1]
      exact alookup_cons_isSome _ _ _ _ h
    | some e =>
      obtain ⟨hb1, -⟩ := AddTemplate_err_spec _ _ _ _ _ _ _ hr
      rw [hb1]
      exact h

/-- The compiled-template map only ever grows across `AddTemplateMap`. -/
theorem AddTemplateMap_html_mono (parseOk : String → Bool) (osfs : FS) :
    ∀ (l : List (String × FileSet)) (b : Box) (n : String),
      (alookup b.html n).isSome →
      (alookup ((b.AddTemplateMap parseOk osfs l).1).html n).isSome := by
  intro l
  induction l with
  | nil => intro b n h; exact h
  | cons p rest ih =>
    intro b n h
    obtain ⟨k, v⟩ := p
    simp only [Box.AddTemplateMap]
    split
    · rename_i b1 hr
      have h1 := AddTemplate_html_mono parseOk osfs b k v n h
      rw [hr] at h1
      exact ih b1 n h1
    · rename_i b1 e hr
      have h1 := AddTemplate_html_mono parseOk osfs b k v n h
      rw [hr] at h1
      exact h1

/-- The compiled-template map only ever grows across `AddTemplateRaw`. -/
theorem AddTemplateRaw_html_mono (parseOk : String → Bool) (b : Box)
    (name : String) (s : TemplateSet) (n : String)
    (h : (alookup b.html n).isSome) :
    (alookup ((b.AddTemplateRaw parseOk name s).1).html n).isSome := by
  cases hr : b.AddTemplateRaw parseOk name s with
  | mk b1 r =>
    show (alookup b1.html n).isSome = true
    cases r with
    | none =>
      obtain ⟨t, -, hb1, -⟩ := AddTemplateRaw_ok_spec _ _ _ _ _ hr
      rw [hb1]
      exact alookup_cons_isSome _ _ _ _ h
    | some e =>
      obtain ⟨hb1, -⟩ := AddTemplateRaw_err_spec _ _ _ _ _ _ hr
      rw [hb1]
      exact h

/-- The compiled-template map only ever grows: a registered name stays
registered across any step. -/
theorem Step_html_mono (b b' : Box) (hs : Step b b') (n : String)
    (h : (alookup b.html n).isSome) : (alookup b'.html n).isSome := by
  cases hs with
  | addTemplate parseOk osfs b name s =>
    exact AddTemplate_html_mono parseOk osfs b name s n h
  | addTemplateMap parseOk osfs b l =>
    exact AddTemplateMap_html_mono parseOk osfs l b n h
  | addTemplateRaw parseOk b name s =>
    exact AddTemplateRaw_html_mono parseOk b name s n h
  | setGlobalFuncMap b g => exact h
  | renderHTML parseOk osfs exec b name data =>
    rcases RenderHTML_box_cases parseOk osfs exec b name data with hbox |
      ⟨s1, -, hbox⟩
    · rw [hbox]; exact h
    · rw [hbox]
      exact AddTemplate_html_mono parseOk osfs b name s1 n h

/-- Registry coherence invariant: every name with a recorded rebuild
FileSet also has a compiled template. -/
def coherent (b : Box) : Prop :=
  ∀ n, (alookup b.rerenderTemplatesHTML n).isSome →
    (alookup b.html n).isSome

/-- `AddTemplate` preserves coherence. -/
theorem AddTemplate_coherent (parseOk : String → Bool) (osfs : FS)
    (b : Box) (name : String) (s : FileSet) (h : coherent b) :
    coherent (b.AddTemplate parseOk osfs name s).1 := by
  intro n hn
  cases hr : b.AddTemplate parseOk osfs name s with
  | mk b1 r =>
    show (alookup b1.html n).isSome = true
    rw [hr] at hn
    have hn' : (alookup b1.rerenderTemplatesHTML n).isSome = true := hn
    cases r with
    | none =>
      obtain ⟨f0, rest, t, -, hb1, -⟩ := AddTemplate_ok_spec _ _ _ _ _ _ hr
      rw [hb1] at hn' ⊢
      by_cases hnm : name = n
      · simp [alookup, hnm]
      · simp only [alookup, hnm, if_false]
        simp only at hn'
        split at hn'
        · simp only [alookup, hnm, if_false] at hn'
          exact h n hn'
        · exact h n hn'
    | some e =>
      obtain ⟨hb1, -⟩ := AddTemplate_err_spec _ _ _ _ _ _ _ hr
      rw [hb1] at hn' ⊢
      exact h n hn'

/-- `AddTemplateMap` preserves coherence. -/
theorem AddTemplateMap_coherent (parseOk : String → Bool) (osfs : FS) :
    ∀ (l : List (String × FileSet)) (b : Box), coherent b →
      coherent (b.AddTemplateMap parseOk osfs l).1 := by
  intro l
  induction l with
  | nil => intro b h; exact h
  | cons p rest ih =>
    intro b h
    obtain ⟨k, v⟩ := p
    simp only [Box.AddTemplateMap]
    split
    · rename_i b1 hr
      have h1 := AddTemplate_coherent parseOk osfs b k v h
      rw [hr] at h1
      exact ih b1 h1
    · rename_i b1 e hr
      have h1 := AddTemplate_coherent parseOk osfs b k v h
      rw [hr] at h1
      exact h1

/-- `AddTemplateRaw` preserves coherence. -/
theorem AddTemplateRaw_coherent (parseOk : String → Bool) (b : Box)
    (name : String) (s : TemplateSet) (h : coherent b) :
    coherent (b.AddTemplateRaw parseOk name s).1 := by
  intro n hn
  rw [AddTemplateRaw_rerender_eq] at hn
  cases hr : b.AddTemplateRaw parseOk name s with
  | mk b1 r =>
    show (alookup b1.html n).isSome = true
    cases r with
    | none =>
      obtain ⟨t, -, hb1, -⟩ := AddTemplateRaw_ok_spec _ _ _ _ _ hr
      rw [hb1]
      exact alookup_cons_isSome _ _ _ _ (h n hn)
    | some e =>
      obtain ⟨hb1, -⟩ := AddTemplateRaw_err_spec _ _ _ _ _ _ hr
      rw [hb1]
      exact h n hn

/-- `RenderHTML` preserves coherence. -/
theorem RenderHTML_coherent (parseOk : String → Bool) (osfs : FS)
    (exec : Template → Data → Except Err String) (b : Box) (name : String)
    (data : Data) (h : coherent b) :
    coherent (b.RenderHTML parseOk osfs exec name data).box := by
  rcases RenderHTML_box_cases parseOk osfs exec b name data with hbox |
    ⟨s1, -, hbox⟩
  · rw [hbox]; exact h
  · rw [hbox]
    exact AddTemplate_coherent parseOk osfs b name s1 h

/-- Every step preserves coherence. -/
theorem Step_coherent (b b' : Box) (hs : Step b b') (h : coherent b) :
    coherent b' := by
  cases hs with
  | addTemplate parseOk osfs b name s =>
    exact AddTemplate_coherent parseOk osfs b name s h
  | addTemplateMap parseOk osfs b l =>
    exact AddTemplateMap_coherent parseOk osfs l b h
  | addTemplateRaw parseOk b name s =>
    exact AddTemplateRaw_coherent parseOk b name s h
  | setGlobalFuncMap b g => exact h
  | renderHTML parseOk osfs exec b name data =>
    exact RenderHTML_coherent parseOk osfs exec b name data h

/-- Every reachable Box is coherent. -/
theorem Reachable_coherent (b : Box) (h : Reachable b) : coherent b := by
  induction h with
  | fromFSDir fs templateDir cfg b hb =>
    unfold NewBoxFromFSDir at hb
    cases fs with
    | none => exact absurd hb (by simp)
    | some afs =>
      cases hb
      intro n hn
      simp [alookup] at hn
  | fromOSDir statOk templateDir cfg b hb =>
    unfold NewBoxFromOSDir at hb
    split at hb
    · cases hb
      intro n hn
      simp [alookup] at hn
    · exact absurd hb (by simp)
  | step b b' hr hs ih => exact Step_coherent b b' hs ih

/-! ## Concrete fixtures used by witnesses and counterexamples -/

/-- A parse predicate accepting every source text. -/
def okParse : String → Bool := fun _ => true

/-- A parse predicate rejecting the source text "bad". -/
def pickyParse : String → Bool := fun s => s != "bad"

/-- An engine execution function producing fixed output. -/
def okExec : Template → Data → Except Err String := fun _ _ => .ok "out"

/-- The Box produced by `NewBoxFromOSDir` on directory "tpl" with a nil
config (so Debug is off). -/
def osBox : Box :=
  { cfg := { Debug := false }, fs := none, templateDir := "tpl",
    globalFuncMap := none, html := [], rerenderTemplatesHTML := [] }

/-- The Box produced by `NewBoxFromOSDir` on directory "" with Debug
enabled. -/
def debugBox : Box :=
  { cfg := { Debug := true }, fs := none, templateDir := "",
    globalFuncMap := none, html := [], rerenderTemplatesHTML := [] }

/-! ## Claims -/

/-- C5: for every name and every registry state, calling `AddTemplate`
with an empty `Filenames` list or `AddTemplateRaw` with an empty
`Templates` list returns the no-sources error and leaves the whole
registry state unchanged (the returned Box is the argument Box, so in
particular any template previously registered under that name is still
stored intact). -/
theorem claim_C5_empty_sources_rejected (parseOk : String → Bool)
    (osfs : FS) (b : Box) (name : String) (fm fm2 : Option FuncMap) :
    b.AddTemplate parseOk osfs name { Filenames := [], FuncMap := fm } =
      (b, some .noFilenames) ∧
    b.AddTemplateRaw parseOk name { Templates := [], FuncMap := fm2 } =
      (b, some .noTemplates) ∧
    ∀ t, alookup b.html name = some t →
      alookup ((b.AddTemplate parseOk osfs name
        { Filenames := [], FuncMap := fm }).1).html name = some t ∧
      alookup ((b.AddTemplateRaw parseOk name
        { Templates := [], FuncMap := fm2 }).1).html name = some t := by
  refine ⟨rfl, rfl, ?_⟩
  intro t ht
  exact ⟨ht, ht⟩

/-- C5 witness: a Box with "n" registered rejects empty registrations
and keeps the old entry. -/
theorem claim_C5_witness :
    alookup (({ osBox with
        html := [("n", Template.new "x")] } : Box).AddTemplate okParse []
        "n" { Filenames := [], FuncMap := none }).1.html "n" =
      some (Template.new "x") ∧
    alookup (({ osBox with
        html := [("n", Template.new "x")] } : Box).AddTemplateRaw okParse
        "n" { Templates := [], FuncMap := none }).1.html "n" =
      some (Template.new "x") :=
  (claim_C5_empty_sources_rejected okParse []
    { osBox with html := [("n", Template.new "x")] } "n" none none).2.2
    (Template.new "x") rfl

/-- C9: `NewBoxFromFSDir` fails exactly on a nil archive handle: with
any non-nil archive it succeeds for every `templateDir` (no validation
of the directory), and with a nil archive it returns the nil-FS error;
`NewBoxFromOSDir` by contrast stats the directory and fails with a
directory-not-exist error when the stat says it is absent. -/
theorem claim_C9_constructor_validation :
    (∀ (afs : FS) (td : String) (cfg : Option Config),
      NewBoxFromFSDir (some afs) td cfg =
        .ok { cfg := cfg.getD defaultConfig, fs := some afs,
              templateDir := td, globalFuncMap := none, html := [],
              rerenderTemplatesHTML := [] }) ∧
    (∀ (td : String) (cfg : Option Config),
      NewBoxFromFSDir none td cfg = .error .nilFS) ∧
    (∀ (statOk : String → Bool) (td : String) (cfg : Option Config),
      statOk td = false →
      NewBoxFromOSDir statOk td cfg = .error (.dirNotExist td)) := by
  refine ⟨fun afs td cfg => rfl, fun td cfg => rfl, ?_⟩
  intro statOk td cfg h
  simp [NewBoxFromOSDir, h]

/-- C9 witness: a nonexistent archive path is accepted by the archive
constructor, while a failing stat is rejected by the OS constructor. -/
theorem claim_C9_witness :
    NewBoxFromFSDir (some []) "no/such/dir" none =
      .ok { cfg := defaultConfig, fs := some [], templateDir := "no/such/dir",
            globalFuncMap := none, html := [], rerenderTemplatesHTML := [] } ∧
    NewBoxFromOSDir (fun _ => false) "x" none = .error (.dirNotExist "x") :=
  ⟨(claim_C9_constructor_validation).1 [] "no/such/dir" none,
   (claim_C9_constructor_validation).2.2 (fun _ => false) "x" none rfl⟩

/-- C10: with debug mode disabled, `RenderHTML` never mutates any
registry state: the Box after the call (hence its compiled-template
map, rerender-source map, shared function table, configuration and
root directory) is the Box before the call, whether the render
succeeds or fails. -/
theorem claim_C10_render_no_mutation (parseOk : String → Bool) (osfs : FS)
    (exec : Template → Data → Except Err String) (b : Box) (name : String)
    (data : Data) (h : b.cfg.Debug = false) :
    (b.RenderHTML parseOk osfs exec name data).box = b := by
  unfold Box.RenderHTML
  rw [h]
  simp only [Bool.false_eq_true, if_false]
  exact lookupAndExec_box ..

/-- C10 witness: rendering a missing name on a non-debug Box leaves it
unchanged. -/
theorem claim_C10_witness :
    (osBox.RenderHTML okParse [] okExec "n" 0).box = osBox :=
  claim_C10_render_no_mutation okParse [] okExec osBox "n" 0 rfl

/-- C2 (amended): the compiled template object's primary
(construction-time) name is the FIRST FILE PATH of the set exactly as
given — `template.New(s.Filenames[0])` — not its base name. -/
theorem claim_C2_primary_name (parseOk : String → Bool) (osfs : FS)
    (b : Box) (name : String) (s : FileSet) (b1 : Box) (f0 : String)
    (rest : List String) (hfns : s.Filenames = f0 :: rest)
    (h : b.AddTemplate parseOk osfs name s = (b1, none)) :
    ∃ t, alookup b1.html name = some t ∧ t.name = f0 := by
  obtain ⟨f0', rest', t, hfns', hb1, hname, -⟩ :=
    AddTemplate_ok_spec _ _ _ _ _ _ h
  rw [hfns] at hfns'
  injection hfns' with h1 h2
  refine ⟨t, ?_, ?_⟩
  · rw [hb1]
    simp [alookup]
  · rw [hname, h1]

/-- C2 counterexample: registering the set ["sub/layout.html"] yields a
compiled object named "sub/layout.html", not its base name
"layout.html" as the claim states. -/
theorem claim_C2_counterexample :
    alookup ((Box.AddTemplate okParse [("sub/layout.html", "x")]
      { cfg := { Debug := false }, fs := none, templateDir := "",
        globalFuncMap := none, html := [], rerenderTemplatesHTML := [] }
      "page" { Filenames := ["sub/layout.html"], FuncMap := none }).1).html
      "page" =
      some { name := "sub/layout.html", funcs := [],
             parsed := [("layout.html", "x")] } ∧
    filepathBase "sub/layout.html" = "layout.html" ∧
    ("sub/layout.html" = "layout.html" → False) := by
  refine ⟨rfl, rfl, ?_⟩
  intro h
  exact absurd h (by decide)

/-- C2 witness: a concrete two-file set registered under the name
"page" stores a compiled object named after the first path. -/
theorem claim_C2_witness :
    ∃ t, alookup ((Box.AddTemplate okParse
      [("tpl/sub/layout.html", "L"), ("tpl/a.html", "A")] osBox "page"
      { Filenames := ["sub/layout.html", "a.html"] , FuncMap := none }).1).html
      "page" = some t ∧ t.name = "sub/layout.html" :=
  claim_C2_primary_name okParse
    [("tpl/sub/layout.html", "L"), ("tpl/a.html", "A")] osBox "page"
    { Filenames := ["sub/layout.html", "a.html"], FuncMap := none } _
    "sub/layout.html" ["a.html"] rfl rfl

/-- C7: for every file set registered with `AddTemplate`, on either
backend: when the root directory is non-empty every path is joined
with it before parsing, and when the root directory is empty the
paths are used verbatim — the stored compiled object holds exactly the
contents read at those resolved paths (from the OS filesystem when
`fs` is nil, from the archive otherwise), and on success every
resolved path was present on the active backend. -/
theorem claim_C7_root_dir_join (parseOk : String → Bool) (osfs : FS)
    (b : Box) (name : String) (s : FileSet) (b1 : Box)
    (h : b.AddTemplate parseOk osfs name s = (b1, none)) :
    ∃ t, alookup b1.html name = some t ∧
      (b.fs = none →
        t.parsed = (if b.templateDir ≠ "" then
            s.Filenames.map (filepathJoin b.templateDir)
          else s.Filenames).map
            (fun f => (filepathBase f, (alookup osfs f).getD "")) ∧
        ∀ f ∈ (if b.templateDir ≠ "" then
            s.Filenames.map (filepathJoin b.templateDir)
          else s.Filenames), (alookup osfs f).isSome) ∧
      (∀ afs, b.fs = some afs →
        t.parsed = (if b.templateDir ≠ "" then
            s.Filenames.map (filepathJoin b.templateDir)
          else s.Filenames).map
            (fun f => (filepathBase f, (alookup afs f).getD "")) ∧
        ∀ f ∈ (if b.templateDir ≠ "" then
            s.Filenames.map (filepathJoin b.templateDir)
          else s.Filenames), (alookup afs f).isSome) := by
  obtain ⟨f0, rest, t, hfns, hb1, -, -, hos, har⟩ :=
    AddTemplate_ok_spec _ _ _ _ _ _ h
  refine ⟨t, ?_, hos, har⟩
  rw [hb1]
  simp [alookup]

/-- An archive-backed Box with root directory "tpl" whose archive
holds "tpl/f.html" (used to witness C7 on the archive path). -/
def c7ArchiveBox : Box :=
  { cfg := { Debug := false }, fs := some [("tpl/f.html", "c")],
    templateDir := "tpl", globalFuncMap := none, html := [],
    rerenderTemplatesHTML := [] }

/-- C7 witness: with root directory "tpl", the set ["f.html"] is read
at the joined path "tpl/f.html" — from the OS filesystem on a live
Box and from the archive on an archive-backed Box. -/
theorem claim_C7_witness :
    (∃ t, alookup ((osBox.AddTemplate okParse [("tpl/f.html", "c")] "page"
      { Filenames := ["f.html"], FuncMap := none }).1).html "page" =
        some t ∧
      (osBox.fs = none →
        t.parsed = (if osBox.templateDir ≠ "" then
            (["f.html"] : List String).map (filepathJoin osBox.templateDir)
          else ["f.html"]).map
            (fun f => (filepathBase f,
              (alookup [("tpl/f.html", "c")] f).getD "")) ∧
        ∀ f ∈ (if osBox.templateDir ≠ "" then
            (["f.html"] : List String).map (filepathJoin osBox.templateDir)
          else ["f.html"]),
          (alookup [("tpl/f.html", "c")] f).isSome) ∧
      (∀ afs, osBox.fs = some afs →
        t.parsed = (if osBox.templateDir ≠ "" then
            (["f.html"] : List String).map (filepathJoin osBox.templateDir)
          else ["f.html"]).map
            (fun f => (filepathBase f, (alookup afs f).getD "")) ∧
        ∀ f ∈ (if osBox.templateDir ≠ "" then
            (["f.html"] : List String).map (filepathJoin osBox.templateDir)
          else ["f.html"]), (alookup afs f).isSome)) ∧
    (∃ t, alookup ((c7ArchiveBox.AddTemplate okParse [] "page"
      { Filenames := ["f.html"], FuncMap := none }).1).html "page" =
        some t ∧
      (c7ArchiveBox.fs = none →
        t.parsed = (if c7ArchiveBox.templateDir ≠ "" then
            (["f.html"] : List String).map
              (filepathJoin c7ArchiveBox.templateDir)
          else ["f.html"]).map
            (fun f => (filepathBase f, (alookup [] f).getD "")) ∧
        ∀ f ∈ (if c7ArchiveBox.templateDir ≠ "" then
            (["f.html"] : List String).map
              (filepathJoin c7ArchiveBox.templateDir)
          else ["f.html"]), (alookup ([] : FS) f).isSome) ∧
      (∀ afs, c7ArchiveBox.fs = some afs →
        t.parsed = (if c7ArchiveBox.templateDir ≠ "" then
            (["f.html"] : List String).map
              (filepathJoin c7ArchiveBox.templateDir)
          else ["f.html"]).map
            (fun f => (filepathBase f, (alookup afs f).getD "")) ∧
        ∀ f ∈ (if c7ArchiveBox.templateDir ≠ "" then
            (["f.html"] : List String).map
              (filepathJoin c7ArchiveBox.templateDir)
          else ["f.html"]), (alookup afs f).isSome)) :=
  ⟨claim_C7_root_dir_join okParse [("tpl/f.html", "c")] osBox "page"
    { Filenames := ["f.html"], FuncMap := none } _ rfl,
   claim_C7_root_dir_join okParse [] c7ArchiveBox "page"
    { Filenames := ["f.html"], FuncMap := none } _ rfl⟩


/-- C8: the shared table is attached first and the per-set table
second, so the binding in effect in a stored compiled template is the
per-set entry when present and the shared entry otherwise (for both
`AddTemplate` and `AddTemplateRaw`); and registering another set under
a different name leaves this set's stored entry untouched. -/
theorem claim_C8_funcmap_override (parseOk : String → Bool) (osfs : FS)
    (b : Box) (g m : FuncMap) (hg : b.globalFuncMap = some g) :
    (∀ (name : String) (s : FileSet) (b1 : Box), s.FuncMap = some m →
      b.AddTemplate parseOk osfs name s = (b1, none) →
      ∃ t, alookup b1.html name = some t ∧
        (∀ id, t.funcLookup id = (alookup m id).or (alookup g id)) ∧
        (∀ id v, alookup m id = some v → t.funcLookup id = some v)) ∧
    (∀ (name : String) (s2 : TemplateSet) (b1 : Box), s2.FuncMap = some m →
      b.AddTemplateRaw parseOk name s2 = (b1, none) →
      ∃ t, alookup b1.html name = some t ∧
        ∀ id, t.funcLookup id = (alookup m id).or (alookup g id)) ∧
    (∀ (name n2 : String) (s3 : FileSet), n2 ≠ name →
      alookup ((b.AddTemplate parseOk osfs n2 s3).1).html name =
        alookup b.html name) ∧
    (∀ (name n2 : String) (s4 : TemplateSet), n2 ≠ name →
      alookup ((b.AddTemplateRaw parseOk n2 s4).1).html name =
        alookup b.html name) := by
  refine ⟨?_, ?_, ?_, ?_⟩
  · intro name s b1 hm h
    obtain ⟨f0, rest, t, -, hb1, -, hfuncs, -, -⟩ :=
      AddTemplate_ok_spec _ _ _ _ _ _ h
    rw [hm, hg] at hfuncs
    simp only [Option.getD_some] at hfuncs
    refine ⟨t, by rw [hb1]; simp [alookup], ?_, ?_⟩
    · intro id
      unfold Template.funcLookup
      rw [hfuncs]
      exact alookup_append m g id
    · intro id v hv
      unfold Template.funcLookup
      rw [hfuncs, alookup_append, hv]
      rfl
  · intro name s2 b1 hm h
    obtain ⟨t, -, hb1, -, hfuncs⟩ := AddTemplateRaw_ok_spec _ _ _ _ _ h
    rw [hm, hg] at hfuncs
    simp only [Option.getD_some] at hfuncs
    refine ⟨t, by rw [hb1]; simp [alookup], ?_⟩
    intro id
    unfold Template.funcLookup
    rw [hfuncs]
    exact alookup_append m g id
  · intro name n2 s3 hne
    cases hr : b.AddTemplate parseOk osfs n2 s3 with
    | mk b1 r =>
      show alookup b1.html name = alookup b.html name
      cases r with
      | none =>
        obtain ⟨f0, rest, t, -, hb1, -⟩ := AddTemplate_ok_spec _ _ _ _ _ _ hr
        rw [hb1]
        simp [alookup, hne]
      | some e =>
        obtain ⟨hb1, -⟩ := AddTemplate_err_spec _ _ _ _ _ _ _ hr
        rw [hb1]
  · intro name n2 s4 hne
    cases hr : b.AddTemplateRaw parseOk n2 s4 with
    | mk b1 r =>
      show alookup b1.html name = alookup b.html name
      cases r with
      | none =>
        obtain ⟨t, -, hb1, -⟩ := AddTemplateRaw_ok_spec _ _ _ _ _ hr
        rw [hb1]
        simp [alookup, hne]
      | some e =>
        obtain ⟨hb1, -⟩ := AddTemplateRaw_err_spec _ _ _ _ _ _ hr
        rw [hb1]

/-- C8 witness: with shared table [("f", 1)] and per-set table
[("f", 2)], the stored template's binding for "f" is 2; registering a
second set under another name — whether a file set or a raw set
carrying its own per-set table — does not change the first entry. -/
theorem claim_C8_witness :
    (∃ t, alookup (({ osBox with globalFuncMap := some [("f", 1)]
        } : Box).AddTemplate okParse [("tpl/f.html", "c")] "page"
        { Filenames := ["f.html"], FuncMap := some [("f", 2)] }).1.html
        "page" = some t ∧
      (∀ id, t.funcLookup id =
        (alookup [("f", 2)] id).or (alookup [("f", 1)] id)) ∧
      (∀ id v, alookup [("f", 2)] id = some v →
        t.funcLookup id = some v)) ∧
    alookup (({ osBox with globalFuncMap := some [("f", 1)]
        } : Box).AddTemplate okParse [] "other"
        { Filenames := ["g.html"], FuncMap := none }).1.html "page" =
      alookup ({ osBox with globalFuncMap := some [("f", 1)] } : Box).html
        "page" ∧
    alookup (({ osBox with globalFuncMap := some [("f", 1)]
        } : Box).AddTemplateRaw okParse "other2"
        { Templates := ["R"], FuncMap := some [("f", 3)] }).1.html "page" =
      alookup ({ osBox with globalFuncMap := some [("f", 1)] } : Box).html
        "page" :=
  ⟨(claim_C8_funcmap_override okParse [("tpl/f.html", "c")]
      { osBox with globalFuncMap := some [("f", 1)] } [("f", 1)] [("f", 2)]
      rfl).1 "page" { Filenames := ["f.html"], FuncMap := some [("f", 2)] }
      _ rfl rfl,
   (claim_C8_funcmap_override okParse []
      { osBox with globalFuncMap := some [("f", 1)] } [("f", 1)] [("f", 2)]
      rfl).2.2.1 "page" "other" { Filenames := ["g.html"], FuncMap := none }
      (by decide),
   (claim_C8_funcmap_override okParse []
      { osBox with globalFuncMap := some [("f", 1)] } [("f", 1)] [("f", 2)]
      rfl).2.2.2 "page" "other2"
      { Templates := ["R"], FuncMap := some [("f", 3)] } (by decide)⟩

/-- C6: a registration with a non-empty source list that returns an
error returns a wrapped parse failure (`addTemplateFailed` for file
sets; `rawParseFailed` naming the set for literal sets) and does not
mutate the compiled-template map: the Box is returned unchanged, so
the name is not stored and a previous entry under the name keeps its
old compiled object. -/
theorem claim_C6_failed_parse_no_mutation :
    (∀ (parseOk : String → Bool) (osfs : FS) (b : Box) (name : String)
        (s : FileSet) (b1 : Box) (e : Err), s.Filenames ≠ [] →
      b.AddTemplate parseOk osfs name s = (b1, some e) →
      b1 = b ∧ (∃ c, e = .addTemplateFailed c) ∧
      alookup b1.html name = alookup b.html name) ∧
    (∀ (parseOk : String → Bool) (b : Box) (name : String)
        (s : TemplateSet) (b1 : Box) (e : Err), s.Templates ≠ [] →
      b.AddTemplateRaw parseOk name s = (b1, some e) →
      b1 = b ∧
      (∃ i str, e = .rawParseFailed name i (.syntaxError str) str) ∧
      alookup b1.html name = alookup b.html name) := by
  constructor
  · intro parseOk osfs b name s b1 e hne h
    obtain ⟨hb1, hcase⟩ := AddTemplate_err_spec _ _ _ _ _ _ _ h
    rcases hcase with ⟨-, hnil⟩ | ⟨c, hc, -⟩
    · exact absurd hnil hne
    · exact ⟨hb1, ⟨c, hc⟩, by rw [hb1]⟩
  · intro parseOk b name s b1 e hne h
    obtain ⟨hb1, hcase⟩ := AddTemplateRaw_err_spec _ _ _ _ _ _ h
    rcases hcase with ⟨-, hnil⟩ | ⟨i, str, hc, -⟩
    · exact absurd hnil hne
    · exact ⟨hb1, ⟨i, str, hc⟩, by rw [hb1]⟩

/-- C6 witness: a missing file and a bad literal source both fail
without touching the stored map. -/
theorem claim_C6_witness :
    ((({ osBox with html := [("n", Template.new "x")] } : Box) =
        { osBox with html := [("n", Template.new "x")] } ∧
      (∃ c, (Err.addTemplateFailed (.fileNotFound "tpl/f")) =
        .addTemplateFailed c)) ∧
      alookup ({ osBox with html := [("n", Template.new "x")] } : Box).html
        "n" = some (Template.new "x")) ∧
    ((({ osBox with html := [("n", Template.new "x")] } : Box) =
        { osBox with html := [("n", Template.new "x")] } ∧
      (∃ i str, (Err.rawParseFailed "n" 0 (.syntaxError "bad") "bad") =
        .rawParseFailed "n" i (.syntaxError str) str))) := by
  have h1 := (claim_C6_failed_parse_no_mutation).1 pickyParse []
    { osBox with html := [("n", Template.new "x")] } "n"
    { Filenames := ["f"], FuncMap := none }
    { osBox with html := [("n", Template.new "x")] }
    (.addTemplateFailed (.fileNotFound "tpl/f")) (by decide) rfl
  have h2 := (claim_C6_failed_parse_no_mutation).2 pickyParse
    { osBox with html := [("n", Template.new "x")] } "n"
    { Templates := ["bad"], FuncMap := none }
    { osBox with html := [("n", Template.new "x")] }
    (.rawParseFailed "n" 0 (.syntaxError "bad") "bad") (by decide) rfl
  exact ⟨⟨⟨h1.1, h1.2.1⟩, rfl⟩, ⟨h2.1, h2.2.1⟩⟩


/-- C4: rendering a name absent from the compiled-template map of any
reachable Box returns the not-found error naming the template, writes
nothing to the sink, and does not attempt execution (the result is
independent of the engine execution function and the Box is
unchanged). -/
theorem claim_C4_not_found (b : Box) (hr : Reachable b)
    (parseOk : String → Bool) (osfs : FS)
    (exec : Template → Data → Except Err String) (name : String)
    (data : Data) (hnone : alookup b.html name = none) :
    b.RenderHTML parseOk osfs exec name data =
      { box := b, written := none,
        err := some (.templateNotFound name) } := by
  have hc := Reachable_coherent b hr
  have hrr : alookup b.rerenderTemplatesHTML name = none := by
    cases h : alookup b.rerenderTemplatesHTML name with
    | none => rfl
    | some s1 =>
      have h2 := hc name (by rw [h]; rfl)
      rw [hnone] at h2
      exact absurd h2 (by simp)
  unfold Box.RenderHTML
  split
  · rw [hrr]
    show b.lookupAndExec exec name data = _
    unfold Box.lookupAndExec
    rw [hnone]
  · show b.lookupAndExec exec name data = _
    unfold Box.lookupAndExec
    rw [hnone]

/-- C4 witness: a freshly constructed Box renders nothing for an
unregistered name. -/
theorem claim_C4_witness :
    osBox.RenderHTML okParse [] okExec "nope" 0 =
      { box := osBox, written := none,
        err := some (.templateNotFound "nope") } :=
  claim_C4_not_found osBox
    (Reachable.fromOSDir (fun _ => true) "tpl" none osBox rfl)
    okParse [] okExec "nope" 0 rfl

/-- C3 (amended): in debug mode the recorded File Source Set for a
name is never dropped by any operation, and a successful `AddTemplate`
re-registration overwrites it with the new set; but `AddTemplateRaw`
leaves the rebuild map entirely untouched, so re-registering a name
with a literal set does NOT drop or overwrite the old recorded File
Source Set. -/
theorem claim_C3_recorded_set_lifecycle :
    (∀ (b b' : Box), Step b b' → ∀ n,
      (alookup b.rerenderTemplatesHTML n).isSome →
      (alookup b'.rerenderTemplatesHTML n).isSome) ∧
    (∀ (parseOk : String → Bool) (osfs : FS) (b : Box) (name : String)
        (s : FileSet) (b1 : Box), b.cfg.Debug = true →
      b.AddTemplate parseOk osfs name s = (b1, none) →
      alookup b1.rerenderTemplatesHTML name = some s) ∧
    (∀ (parseOk : String → Bool) (b : Box) (name : String)
        (s : TemplateSet),
      ((b.AddTemplateRaw parseOk name s).1).rerenderTemplatesHTML =
        b.rerenderTemplatesHTML) := by
  refine ⟨?_, ?_, ?_⟩
  · intro b b' hs n h
    cases hs with
    | addTemplate parseOk osfs b name s =>
      exact AddTemplate_rerender_mono parseOk osfs b name s n h
    | addTemplateMap parseOk osfs b l =>
      exact AddTemplateMap_rerender_mono parseOk osfs l b n h
    | addTemplateRaw parseOk b name s =>
      rw [AddTemplateRaw_rerender_eq]
      exact h
    | setGlobalFuncMap b g => exact h
    | renderHTML parseOk osfs exec b name data =>
      rcases RenderHTML_box_cases parseOk osfs exec b name data with hbox |
        ⟨s1, -, hbox⟩
      · rw [hbox]; exact h
      · rw [hbox]
        exact AddTemplate_rerender_mono parseOk osfs b name s1 n h
  · intro parseOk osfs b name s b1 hd h
    obtain ⟨f0, rest, t, -, hb1, -⟩ := AddTemplate_ok_spec _ _ _ _ _ _ h
    rw [hb1]
    simp [hd, alookup]
  · intro parseOk b name s
    exact AddTemplateRaw_rerender_eq parseOk b name s

/-- C3 counterexample: on a debug live-filesystem Box, register "n"
from file set ["f"], then re-register "n" with a literal set via
`AddTemplateRaw`.  The re-registration succeeds (the stored compiled
object under "n" is now the literal one, second conjunct), yet the
recorded File Source Set for "n" is still the OLD file set (first
conjunct) — neither dropped nor overwritten, contradicting the claim
that every re-registration drops or overwrites it. -/
theorem claim_C3_counterexample :
    alookup (((debugBox.AddTemplate okParse [("f", "A")] "n"
        { Filenames := ["f"], FuncMap := none }).1.AddTemplateRaw okParse
        "n" { Templates := ["R"], FuncMap := none }).1).rerenderTemplatesHTML
      "n" = some { Filenames := ["f"], FuncMap := none } ∧
    alookup (((debugBox.AddTemplate okParse [("f", "A")] "n"
        { Filenames := ["f"], FuncMap := none }).1.AddTemplateRaw okParse
        "n" { Templates := ["R"], FuncMap := none }).1).html "n" =
      some { name := "n", funcs := [], parsed := [("n", "R")] } :=
  ⟨rfl, rfl⟩

/-- The debug Box with a FileSet recorded under "m" (used to witness
C3 retention across an unrelated raw registration). -/
def c3RetainBox : Box :=
  { debugBox with
    rerenderTemplatesHTML := [("m", { Filenames := ["f"], FuncMap := none })] }

/-- The Box obtained by registering "n" from file "f" (contents "A")
on `debugBox` (used to witness the C3 overwrite part). -/
def c3AfterAddBox : Box :=
  { cfg := { Debug := true }, fs := none, templateDir := "",
    globalFuncMap := none,
    html := [("n", { name := "f", funcs := [], parsed := [("f", "A")] })],
    rerenderTemplatesHTML := [("n", { Filenames := ["f"], FuncMap := none })] }

/-- C3 witness: a recorded set survives an `AddTemplateRaw` step under
another key, and a debug `AddTemplate` success records its set. -/
theorem claim_C3_witness :
    (alookup ((c3RetainBox.AddTemplateRaw okParse "k"
        { Templates := ["R"], FuncMap := none }).1).rerenderTemplatesHTML
      "m").isSome ∧
    alookup c3AfterAddBox.rerenderTemplatesHTML "n" =
      some { Filenames := ["f"], FuncMap := none } :=
  ⟨(claim_C3_recorded_set_lifecycle).1 c3RetainBox _
      (Step.addTemplateRaw okParse c3RetainBox "k"
        { Templates := ["R"], FuncMap := none }) "m" rfl,
   (claim_C3_recorded_set_lifecycle).2.1 okParse [("f", "A")] debugBox
      "n" { Filenames := ["f"], FuncMap := none } c3AfterAddBox rfl rfl⟩

/-- C1: rendering a name in debug mode with a recorded File Source
Set: on a live-filesystem Box (`fs = nil`) the render first re-runs
`AddTemplate` on the recorded set — on success the refreshed compiled
object (holding the CURRENT file contents) replaces the stored one
and is the one looked up — while on an archive-backed Box no
recompilation happens and the render is a plain lookup on the
unchanged Box. -/
theorem claim_C1_debug_rebuild (parseOk : String → Bool) (osfs : FS)
    (exec : Template → Data → Except Err String) (b : Box) (name : String)
    (data : Data) (s1 : FileSet) (hd : b.cfg.Debug = true)
    (hs1 : alookup b.rerenderTemplatesHTML name = some s1) :
    (b.fs = none →
      (b.RenderHTML parseOk osfs exec name data =
        match b.AddTemplate parseOk osfs name s1 with
        | (b1, some e) =>
          { box := b1, written := none, err := some (.rebuildFailed e) }
        | (b1, none) => b1.lookupAndExec exec name data) ∧
      ∀ b1, b.AddTemplate parseOk osfs name s1 = (b1, none) →
        b.RenderHTML parseOk osfs exec name data =
          b1.lookupAndExec exec name data ∧
        ∃ t, alookup b1.html name = some t ∧
          t.parsed = (if b.templateDir ≠ "" then
              s1.Filenames.map (filepathJoin b.templateDir)
            else s1.Filenames).map
              (fun f => (filepathBase f, (alookup osfs f).getD ""))) ∧
    (∀ afs, b.fs = some afs →
      b.RenderHTML parseOk osfs exec name data =
        b.lookupAndExec exec name data) := by
  constructor
  · intro hfs
    have hmain : b.RenderHTML parseOk osfs exec name data =
        match b.AddTemplate parseOk osfs name s1 with
        | (b1, some e) =>
          { box := b1, written := none, err := some (.rebuildFailed e) }
        | (b1, none) => b1.lookupAndExec exec name data := by
      unfold Box.RenderHTML
      rw [hd]
      simp only [eq_self_iff_true, if_true]
      rw [hs1, hfs]
    refine ⟨hmain, ?_⟩
    intro b1 hadd
    constructor
    · rw [hmain, hadd]
    · obtain ⟨f0, rest, t, hfns, hb1, -, -, hos, -⟩ :=
        AddTemplate_ok_spec _ _ _ _ _ _ hadd
      obtain ⟨hparsed, -⟩ := hos hfs
      exact ⟨t, by rw [hb1]; simp [alookup], hparsed⟩
  · intro afs hfs
    unfold Box.RenderHTML
    rw [hd]
    simp only [eq_self_iff_true, if_true]
    rw [hs1, hfs]

/-- A debug live-filesystem Box whose name "n" has a recorded File
Source Set (used to witness C1). -/
def c1LiveBox : Box :=
  { cfg := { Debug := true }, fs := none, templateDir := "",
    globalFuncMap := none, html := [],
    rerenderTemplatesHTML := [("n", { Filenames := ["f"], FuncMap := none })] }

/-- A debug archive-backed Box whose name "n" has a recorded File
Source Set (used to witness C1). -/
def c1ArchiveBox : Box :=
  { cfg := { Debug := true }, fs := some [("f", "X")], templateDir := "",
    globalFuncMap := none,
    html := [("n", Template.new "f")],
    rerenderTemplatesHTML := [("n", { Filenames := ["f"], FuncMap := none })] }

/-- C1 witness: the live Box renders through the rebuild path, the
archive Box renders as a plain lookup. -/
theorem claim_C1_witness :
    (c1LiveBox.RenderHTML okParse [("f", "NEW")] okExec "n" 0 =
      match c1LiveBox.AddTemplate okParse [("f", "NEW")] "n"
          { Filenames := ["f"], FuncMap := none } with
      | (b1, some e) =>
        { box := b1, written := none, err := some (.rebuildFailed e) }
      | (b1, none) => b1.lookupAndExec okExec "n" 0) ∧
    (c1ArchiveBox.RenderHTML okParse [] okExec "n" 0 =
      c1ArchiveBox.lookupAndExec okExec "n" 0) :=
  ⟨((claim_C1_debug_rebuild okParse [("f", "NEW")] okExec c1LiveBox "n" 0
      { Filenames := ["f"], FuncMap := none } rfl rfl).1 rfl).1,
   (claim_C1_debug_rebuild okParse [] okExec c1ArchiveBox "n" 0
      { Filenames := ["f"], FuncMap := none } rfl rfl).2 [("f", "X")] rfl⟩

end Templatebox
